import Mathlib

set_option linter.unusedVariables false

/-!
# Vacation-planner tool layer: formal model

Shallow embedding of the deterministic tool layer of the vacation-planner
agent (`src/agent/tools.py`): flight/hotel/activity search, budget
evaluation, and the payment-gated booking operations.

Modelling conventions:
* Python dict results become Lean inductives/structures, one constructor
  per distinct return shape of the source function.
* JSON numbers (prices, ratings, amounts) become `ℚ`; Python `round(x, 2)`
  becomes exact round-half-to-even to a multiple of `1/100` on `ℚ`.
* A `YYYY-MM-DD` date that `datetime.strptime` accepts is modelled by its
  proleptic-Gregorian ordinal day number (`ℤ`); subtraction of two such
  dates followed by `.days` is then ordinal subtraction.  A date argument
  that would make `strptime` raise is modelled as `Option.none`.
* `load_json_data` is modelled by an `Except String` catalog argument:
  `.error` is the dataset-unavailable fault the Python `try` block catches.
* `random.randint(1000, 9999)` is modelled by an explicit `rng : ℕ`
  argument mapped into `[1000, 9999]`.
* Python string formatting (f-strings with float formatting) inside
  warning messages is abstracted into a structured `BudgetWarning` value
  carrying the same data.
-/

/-! ## Shared helpers -/

/-- Python's substring test `needle in hay` on character sequences. -/
def charSeqContains (needle : List Char) : List Char → Bool
  | [] => needle.isEmpty
  | c :: t => needle.isPrefixOf (c :: t) || charSeqContains needle t

/-- Python's `needle in hay` for strings. -/
def pyIn (needle hay : String) : Bool :=
  charSeqContains needle.data hay.data

/-- Python's `str.lower()`, character-wise (the datasets are ASCII). -/
def pyLower (s : String) : String :=
  ⟨s.data.map Char.toLower⟩

/-- Python's `str.upper()`, character-wise (the datasets are ASCII). -/
def pyUpper (s : String) : String :=
  ⟨s.data.map Char.toUpper⟩

/-- Round-half-to-even to the nearest integer (Python's `round` on a number
with fractional part exactly representable, e.g. multiples of `1/100`). -/
def roundHalfEven (x : ℚ) : ℤ :=
  let f := ⌊x⌋
  let frac := x - f
  if frac < 1/2 then f
  else if 1/2 < frac then f + 1
  else if f % 2 = 0 then f else f + 1

/-- Python's `round(x, 2)`. -/
def round2 (x : ℚ) : ℚ :=
  (roundHalfEven (x * 100) : ℚ) / 100

/-! ## Flights (`search_flights`, `tools.py` lines 81–150) -/

/-- A row of `flights_mock.json`.  The JSON key `"class"` is the Lean
field `cls` (`class` is reserved in both languages). -/
structure Flight where
  flight_id : String
  airline : String
  origin : String
  destination : String
  cls : String
  price : ℚ
  currency : String
  duration : String
  origin_city : String
  destination_city : String
deriving DecidableEq

/-- The `city_to_airport` table of `search_flights`. -/
def city_to_airport : List (String × String) :=
  [("jakarta", "CGK"), ("bali", "DPS"), ("denpasar", "DPS"), ("tokyo", "NRT"),
   ("paris", "CDG"), ("barcelona", "BCN"), ("santorini", "JTR")]

/-- `city_to_airport.get(name.lower(), name.upper())`. -/
def resolveCode (s : String) : String :=
  match city_to_airport.find? (fun p => p.1 == pyLower s) with
  | some p => p.2
  | none => pyUpper s

/-- A flight search hit: the catalog row plus the per-call derived fields
added to the copied dict (`total_price`, `passengers`). -/
structure FlightResult where
  flight : Flight
  total_price : ℚ
  passengers : ℤ
deriving DecidableEq

def mkFlightResult (passengers : ℤ) (f : Flight) : FlightResult :=
  ⟨f, f.price * passengers, passengers⟩

/-- The filter condition of the `search_flights` loop. -/
def flightMatches (oc dc tc : String) (f : Flight) : Bool :=
  f.origin == oc && f.destination == dc && f.cls == tc

/-- Sort key of `matching_flights.sort(key=lambda x: x["total_price"])`. -/
def flightLe (a b : FlightResult) : Bool :=
  decide (a.total_price ≤ b.total_price)

/-- The three return shapes of `search_flights`. -/
inductive SearchFlightsResult where
  | error (msg : String)
  | empty (message : String)
  | ok (flights : List FlightResult) (total_results : ℕ)
deriving DecidableEq

/-- The pre-truncation match list built by the `search_flights` loop. -/
def searchFlightsMatches (catalog : List Flight) (origin destination : String)
    (passengers : ℤ) (travel_class : String) : List FlightResult :=
  (catalog.filter
      (flightMatches (resolveCode origin) (resolveCode destination) travel_class)).map
    (mkFlightResult passengers)

/-- `search_flights(origin, destination, passengers, travel_class)`. -/
def search_flights (catalogE : Except String (List Flight))
    (origin destination : String) (passengers : ℤ) (travel_class : String) :
    SearchFlightsResult :=
  match catalogE with
  | .error e => .error ("Failed to search flights: " ++ e)
  | .ok catalog =>
    let matching := searchFlightsMatches catalog origin destination passengers travel_class
    if matching.isEmpty then
      .empty ("No flights found from " ++ resolveCode origin ++ " to " ++
        resolveCode destination)
    else
      .ok ((matching.mergeSort flightLe).take 5) matching.length

/-- The flight list of a `search_flights` result (empty for the no-match
message and for the error shape, which carry no `flights` entries). -/
def SearchFlightsResult.flightsList : SearchFlightsResult → List FlightResult
  | .ok fs _ => fs
  | _ => []

/-! ## Hotels (`search_hotels`, `tools.py` lines 153–212) -/

/-- A row of `hotels_mock.json`. -/
structure Hotel where
  hotel_id : String
  name : String
  destination_city : String
  location : String
  rating : ℚ
  price_per_night : ℚ
  currency : String
  room_type : String
deriving DecidableEq

/-- A hotel search hit: the catalog row plus the per-call derived fields
(`nights`, `total_price`, echoed `check_in`/`check_out` dates). -/
structure HotelResult where
  hotel : Hotel
  nights : ℤ
  total_price : ℚ
  check_in : ℤ
  check_out : ℤ
deriving DecidableEq

/-- The filter condition of the `search_hotels` loop:
`destination.lower() in hotel["destination_city"].lower() and
hotel["rating"] >= min_rating`. -/
def hotelMatches (destination : String) (min_rating : ℚ) (h : Hotel) : Bool :=
  pyIn (pyLower destination) (pyLower h.destination_city) &&
    decide (min_rating ≤ h.rating)

/-- The copied dict built in the loop body; `nights` is the whole-day
difference of the parsed dates. -/
def mkHotelResult (check_in check_out : ℤ) (h : Hotel) : HotelResult :=
  ⟨h, check_out - check_in, h.price_per_night * (check_out - check_in),
   check_in, check_out⟩

/-- Sort key `lambda x: (-x["rating"], x["total_price"])` of the stable
ascending Python sort: rating descending, then total price ascending. -/
def hotelLe (a b : HotelResult) : Bool :=
  decide (b.hotel.rating < a.hotel.rating) ||
    (decide (a.hotel.rating = b.hotel.rating) && decide (a.total_price ≤ b.total_price))

/-- The three return shapes of `search_hotels`. -/
inductive SearchHotelsResult where
  | error (msg : String)
  | empty (message : String)
  | ok (hotels : List HotelResult) (total_results : ℕ)
deriving DecidableEq

/-- The pre-truncation match list built by the `search_hotels` loop. -/
def searchHotelsMatches (catalog : List Hotel) (destination : String)
    (check_in check_out : ℤ) (min_rating : ℚ) : List HotelResult :=
  (catalog.filter (hotelMatches destination min_rating)).map
    (mkHotelResult check_in check_out)

/-- `search_hotels(destination, check_in, check_out, guests, min_rating)`.
`guests` is accepted but unused, as in the source.  A `none` date models a
string `strptime` rejects; the raised `ValueError` is caught by the
function's `except` clause and surfaced as the `error` shape. -/
def search_hotels (catalogE : Except String (List Hotel)) (destination : String)
    (check_in check_out : Option ℤ) (guests : ℤ) (min_rating : ℚ) :
    SearchHotelsResult :=
  match catalogE with
  | .error e => .error ("Failed to search hotels: " ++ e)
  | .ok catalog =>
    match check_in, check_out with
    | some ci, some co =>
      let matching := searchHotelsMatches catalog destination ci co min_rating
      if matching.isEmpty then
        .empty ("No hotels found in " ++ destination ++ " meeting criteria")
      else
        .ok ((matching.mergeSort hotelLe).take 5) matching.length
    | _, _ => .error "Failed to search hotels: invalid date"

/-- The hotel list of a `search_hotels` result. -/
def SearchHotelsResult.hotelsList : SearchHotelsResult → List HotelResult
  | .ok hs _ => hs
  | _ => []

/-! ## Activities (`search_activities`, `tools.py` lines 215–277) -/

/-- A row of `activities_mock.json`. -/
structure Activity where
  activity_id : String
  name : String
  destination_city : String
  category : String
  rating : ℚ
deriving DecidableEq

/-- The `interests` argument as it can arrive from the agent runtime:
absent (`None`), a plain string (not starting with `[`), a string starting
with `[` (carried together with its `json.loads` outcome: `none` when the
parse raises `JSONDecodeError`), or a list of strings. -/
inductive InterestsArg where
  | absent
  | single (s : String)
  | serialized (parsed : Option (List String))
  | many (l : List String)
deriving DecidableEq

/-- The "auto-fix" normalization at the top of `search_activities`:
a plain string becomes a one-element list, a `[`-string is JSON-parsed
(parse failure is treated as `None`), a list is kept. -/
def normalizeInterests : InterestsArg → Option (List String)
  | .absent => none
  | .single s => some [s]
  | .serialized p => p
  | .many l => some l

/-- The inner filter `if interests: if activity["category"] in interests`.
Python truthiness: `None` and the empty list both skip the category
filter. -/
def interestsAllow (i : Option (List String)) (cat : String) : Bool :=
  match i with
  | none => true
  | some l => if l.isEmpty then true else l.contains cat

/-- The filter condition of the `search_activities` loop. -/
def activityMatches (destination : String) (i : Option (List String))
    (a : Activity) : Bool :=
  pyIn (pyLower destination) (pyLower a.destination_city) &&
    interestsAllow i a.category

/-- Sort key `lambda x: -x["rating"]` of the ascending Python sort:
rating descending. -/
def activityLe (a b : Activity) : Bool :=
  decide (b.rating ≤ a.rating)

/-- The three return shapes of `search_activities`. -/
inductive SearchActivitiesResult where
  | error (msg : String)
  | empty (message : String)
  | ok (activities : List Activity) (total_results : ℕ)
deriving DecidableEq

/-- The pre-truncation match list built by the `search_activities` loop. -/
def searchActivitiesMatches (catalog : List Activity) (destination : String)
    (interests : InterestsArg) : List Activity :=
  catalog.filter (activityMatches destination (normalizeInterests interests))

/-- `search_activities(destination, interests)`. -/
def search_activities (catalogE : Except String (List Activity))
    (destination : String) (interests : InterestsArg) : SearchActivitiesResult :=
  match catalogE with
  | .error e => .error ("Failed to search activities: " ++ e)
  | .ok catalog =>
    let matching := searchActivitiesMatches catalog destination interests
    if matching.isEmpty then
      .empty ("No activities found in " ++ destination)
    else
      .ok ((matching.mergeSort activityLe).take 10) matching.length

/-- The activity list of a `search_activities` result. -/
def SearchActivitiesResult.activitiesList : SearchActivitiesResult → List Activity
  | .ok l _ => l
  | _ => []

/-! ## Budget (`calculate_budget`, `tools.py` lines 280–341) -/

/-- One entry of the parsed `planned_expenses` array. -/
structure Expense where
  category : String
  amount : ℚ
deriving DecidableEq

/-- The `budget` block of `user_preferences.json`: a grand total, a
currency, and a category→limit breakdown mapping. -/
structure BudgetLimits where
  total : ℚ
  currency : String
  breakdown : List (String × ℚ)
deriving DecidableEq

/-- The slice of `user_preferences.json` that `calculate_budget` reads. -/
structure UserPreferences where
  budget : BudgetLimits
deriving DecidableEq

/-- The `planned_expenses` argument after `json.loads`: either the parse
raised `JSONDecodeError`, or it produced a list of expense records. -/
inductive ExpensesInput where
  | invalidJson
  | parsed (l : List Expense)
deriving DecidableEq

/-- The totals loop: `totals = {"flights": 0, "hotels": 0}`, adding each
expense's amount to its category and silently skipping any other
category. -/
def budgetStep (t : ℚ × ℚ) (e : Expense) : ℚ × ℚ :=
  if e.category == "flights" then (t.1 + e.amount, t.2)
  else if e.category == "hotels" then (t.1, t.2 + e.amount)
  else t

def budgetTotals (expenses : List Expense) : ℚ × ℚ :=
  expenses.foldl budgetStep (0, 0)

/-- A warning entry, abstracting the formatted f-string of the source but
carrying the same data. -/
inductive BudgetWarning where
  | categoryExceeds (category : String) (spent limit : ℚ)
  | totalExceeded (overage : ℚ)
deriving DecidableEq

/-- `budget_limits["breakdown"]` lookup (`category in ...` then index). -/
def lookupBreakdown (b : List (String × ℚ)) (c : String) : Option ℚ :=
  (b.find? (fun p => p.1 == c)).map (fun p => p.2)

/-- The per-category warning check of the loop over `totals.items()`. -/
def categoryWarning (breakdown : List (String × ℚ)) (category : String)
    (spent : ℚ) : List BudgetWarning :=
  match lookupBreakdown breakdown category with
  | some limit => if limit < spent then [.categoryExceeds category spent limit] else []
  | none => []

/-- The full warning list built by `calculate_budget`: the per-category
loop over `totals.items()` (iteration order `flights`, `hotels`), then the
grand-total check appending `Total budget exceeded by ${abs(remaining)}`. -/
def budgetWarnings (bl : BudgetLimits) (t : ℚ × ℚ) : List BudgetWarning :=
  categoryWarning bl.breakdown "flights" t.1 ++
    categoryWarning bl.breakdown "hotels" t.2 ++
    (if t.1 + t.2 ≤ bl.total then [] else [.totalExceeded |bl.total - (t.1 + t.2)|])

/-- The success dict of `calculate_budget`. -/
structure BudgetReport where
  total_spent : ℚ
  budget_limit : ℚ
  remaining : ℚ
  breakdown_flights : ℚ
  breakdown_hotels : ℚ
  within_budget : Bool
  warnings : List BudgetWarning
  currency : String
  note : String
deriving DecidableEq

/-- The two return shapes of `calculate_budget`. -/
inductive BudgetResult where
  | error (msg : String)
  | report (r : BudgetReport)
deriving DecidableEq

/-- `calculate_budget(planned_expenses)`: parse, load preferences, total
per category, compare against limits.  `total_spent` and `remaining` are
rounded to 2 decimals in the returned dict; `within_budget` and the
warnings are computed on the unrounded values, as in the source. -/
def calculate_budget (input : ExpensesInput)
    (prefsE : Except String UserPreferences) : BudgetResult :=
  match input with
  | .invalidJson => .error "Invalid JSON format for planned_expenses"
  | .parsed expenses =>
    match prefsE with
    | .error e => .error ("Failed to calculate budget: " ++ e)
    | .ok prefs =>
      let bl := prefs.budget
      let t := budgetTotals expenses
      let total_spent := t.1 + t.2
      let remaining := bl.total - total_spent
      let within_budget := decide (total_spent ≤ bl.total)
      .report ⟨round2 total_spent, bl.total, round2 remaining, t.1, t.2,
        within_budget, budgetWarnings bl t, bl.currency,
        "Activities not included - book directly with providers"⟩

/-- Projection: the report of a successful `calculate_budget` call. -/
def BudgetResult.report? : BudgetResult → Option BudgetReport
  | .report r => some r
  | .error _ => none

/-! ## Booking (`book_flight` lines 344–396, `book_hotel` lines 399–463) -/

/-- The process environment slice the booking gate reads:
`os.environ.get('PAYMENT_AUTHORIZED')`. -/
structure Env where
  payment_authorized_var : Option String
deriving DecidableEq

/-- `payment_authorized = os.environ.get('PAYMENT_AUTHORIZED') == 'true'`. -/
def gateOpen (env : Env) : Bool :=
  env.payment_authorized_var == some "true"

/-- `random.randint(1000, 9999)` driven by an explicit seed. -/
def randint4 (rng : ℕ) : ℕ :=
  1000 + rng % 9000

/-- The `flight_details` sub-dict of a confirmed flight booking. -/
structure FlightDetails where
  flight_id : String
  airline : String
  route : String
  duration : String
deriving DecidableEq

/-- The return shapes of `book_flight`: gate-closed failure, unknown-id
failure, confirmation, and the caught-exception failure. -/
inductive BookFlightResult where
  | paymentRequired (message action_required : String)
  | notFound (message : String)
  | confirmed (booking_reference : String) (details : FlightDetails)
      (total_charged : ℚ) (currency : String) (message : String)
  | error (msg : String)
deriving DecidableEq

/-- `book_flight(flight_id)`. -/
def book_flight (env : Env) (catalogE : Except String (List Flight)) (rng : ℕ)
    (flight_id : String) : BookFlightResult :=
  if gateOpen env = false then
    .paymentRequired
      "⚠️ Payment information required. Please configure payment details in the sidebar first."
      "setup_payment"
  else
    match catalogE with
    | .error e => .error ("Booking failed: " ++ e)
    | .ok catalog =>
      match catalog.find? (fun f => f.flight_id == flight_id) with
      | none => .notFound ("Flight " ++ flight_id ++ " not found")
      | some f =>
        let ref := "BK-" ++ flight_id ++ "-" ++ toString (randint4 rng)
        .confirmed ref
          ⟨f.flight_id, f.airline, f.origin_city ++ " → " ++ f.destination_city,
            f.duration⟩
          f.price f.currency
          ("✅ Flight booked successfully! Confirmation: " ++ ref)

/-- The booking reference of a `book_flight` result, when one was
generated. -/
def BookFlightResult.reference? : BookFlightResult → Option String
  | .confirmed r _ _ _ _ => some r
  | _ => none

/-- The `hotel_details` sub-dict of a confirmed hotel booking. -/
structure HotelDetails where
  hotel_id : String
  name : String
  location : String
  room_type : String
  rating : ℚ
deriving DecidableEq

/-- The return shapes of `book_hotel`. -/
inductive BookHotelResult where
  | paymentRequired (message action_required : String)
  | notFound (message : String)
  | confirmed (booking_reference : String) (details : HotelDetails)
      (check_in check_out nights : ℤ) (total_charged : ℚ) (currency : String)
      (message : String)
  | error (msg : String)
deriving DecidableEq

/-- `book_hotel(hotel_id, check_in, check_out)`.  Order follows the
source: gate check, catalog load, id lookup, then date parsing (a `none`
date models a string `strptime` rejects; the raised `ValueError` is caught
by the `except` clause). -/
def book_hotel (env : Env) (catalogE : Except String (List Hotel)) (rng : ℕ)
    (hotel_id : String) (check_in check_out : Option ℤ) : BookHotelResult :=
  if gateOpen env = false then
    .paymentRequired
      "⚠️ Payment information required. Please configure payment details in the sidebar first."
      "setup_payment"
  else
    match catalogE with
    | .error e => .error ("Booking failed: " ++ e)
    | .ok catalog =>
      match catalog.find? (fun h => h.hotel_id == hotel_id) with
      | none => .notFound ("Hotel " ++ hotel_id ++ " not found")
      | some h =>
        match check_in, check_out with
        | some ci, some co =>
          let nights := co - ci
          let total_price := h.price_per_night * nights
          let ref := "BK-" ++ hotel_id ++ "-" ++ toString (randint4 rng)
          .confirmed ref ⟨h.hotel_id, h.name, h.location, h.room_type, h.rating⟩
            ci co nights total_price h.currency
            ("✅ Hotel booked successfully! Confirmation: " ++ ref)
        | _, _ => .error "Booking failed: invalid date"

/-- The booking reference of a `book_hotel` result, when one was
generated. -/
def BookHotelResult.reference? : BookHotelResult → Option String
  | .confirmed r _ _ _ _ _ _ _ => some r
  | _ => none

/-- The `(nights, total_charged)` pair of a confirmed hotel booking. -/
def BookHotelResult.charge? : BookHotelResult → Option (ℤ × ℚ)
  | .confirmed _ _ _ _ n t _ _ => some (n, t)
  | _ => none

/-! ## Concrete rows for witnesses and counterexamples -/

def demoFlight : Flight :=
  ⟨"FL001", "Garuda Indonesia", "CGK", "DPS", "economy", 200, "USD", "2h 05m",
   "Jakarta", "Bali"⟩

def demoHotel : Hotel :=
  ⟨"HTL001", "Grand Coast Resort", "Denpasar, Bali", "Nusa Dua", 4.5, 100,
   "USD", "Deluxe"⟩

/-- A rational that is a whole number of cents (every monetary value in the
datasets and in well-formed expense lists is). -/
def IsCents (x : ℚ) : Prop := ∃ k : ℤ, x = (k : ℚ) / 100

def demoPrefs : UserPreferences :=
  ⟨⟨1000, "USD", [("flights", 1200), ("hotels", 1500)]⟩⟩

def demoActivity : Activity :=
  ⟨"ACT001", "Beach Day", "Bali", "beaches", 4.8⟩

/-! ## Theorems -/

theorem roundHalfEven_intCast (k : ℤ) : roundHalfEven (k : ℚ) = k := by
  unfold roundHalfEven
  simp

theorem round2_cents (k : ℤ) : round2 ((k : ℚ) / 100) = (k : ℚ) / 100 := by
  unfold round2
  have h : ((k : ℚ) / 100) * 100 = (k : ℚ) := by ring
  rw [h, roundHalfEven_intCast]

theorem flightLe_trans (a b c : FlightResult) :
    flightLe a b = true → flightLe b c = true → flightLe a c = true := by
  simp only [flightLe, decide_eq_true_iff]
  exact le_trans

theorem flightLe_total (a b : FlightResult) : (flightLe a b || flightLe b a) = true := by
  simp only [flightLe, Bool.or_eq_true, decide_eq_true_iff]
  exact le_total _ _

theorem mem_search_flights {catalog : List Flight} {o d : String} {p : ℤ}
    {tc : String} {r : FlightResult}
    (hr : r ∈ (search_flights (.ok catalog) o d p tc).flightsList) :
    r ∈ searchFlightsMatches catalog o d p tc := by
  unfold search_flights SearchFlightsResult.flightsList at hr
  by_cases hm : (searchFlightsMatches catalog o d p tc).isEmpty
  · simp [hm] at hr
  · simp only [hm, if_false, Bool.false_eq_true] at hr
    exact (List.mergeSort_perm (searchFlightsMatches catalog o d p tc) flightLe).subset
      ((List.take_sublist 5 _).subset hr)

theorem search_flights_sorted (catalog : List Flight) (o d : String) (p : ℤ)
    (tc : String) :
    (search_flights (.ok catalog) o d p tc).flightsList.Pairwise
      (fun a b => a.total_price ≤ b.total_price) := by
  unfold search_flights SearchFlightsResult.flightsList
  by_cases hm : (searchFlightsMatches catalog o d p tc).isEmpty
  · simp [hm]
  · simp only [hm, if_false, Bool.false_eq_true]
    have hs := List.sorted_mergeSort flightLe_trans flightLe_total
      (searchFlightsMatches catalog o d p tc)
    have hs' : ((searchFlightsMatches catalog o d p tc).mergeSort flightLe).Pairwise
        (fun a b => a.total_price ≤ b.total_price) := by
      refine hs.imp ?_
      intro a b h
      simpa [flightLe] using h
    exact hs'.sublist (List.take_sublist 5 _)

theorem search_flights_length_le (catalog : List Flight) (o d : String) (p : ℤ)
    (tc : String) :
    (search_flights (.ok catalog) o d p tc).flightsList.length ≤ 5 := by
  unfold search_flights SearchFlightsResult.flightsList
  by_cases hm : (searchFlightsMatches catalog o d p tc).isEmpty
  · simp [hm]
  · simp only [hm, if_false, Bool.false_eq_true]
    exact List.length_take_le 5 _

theorem searchFlightsMatches_spec {catalog : List Flight} {o d : String} {p : ℤ}
    {tc : String} {r : FlightResult}
    (hr : r ∈ searchFlightsMatches catalog o d p tc) :
    r.flight ∈ catalog ∧ r.flight.origin = resolveCode o ∧
      r.flight.destination = resolveCode d ∧ r.flight.cls = tc ∧
      r.total_price = r.flight.price * p ∧ r.passengers = p := by
  unfold searchFlightsMatches at hr
  rcases List.mem_map.mp hr with ⟨f, hf, rfl⟩
  rcases List.mem_filter.mp hf with ⟨hmem, hmatch⟩
  have h3 : (f.origin = resolveCode o ∧ f.destination = resolveCode d) ∧ f.cls = tc := by
    simpa [flightMatches] using hmatch
  exact ⟨hmem, h3.1.1, h3.1.2, h3.2, rfl, rfl⟩

/-- C2: flight search returns only exact (origin, destination, class)
matches of the resolved codes, with `total_price = unit price × passengers`,
sorted ascending by `total_price`, at most 5 results, and `total_results`
equal to the pre-truncation match count. -/
theorem C2_flight_search_contract (catalog : List Flight) (origin destination : String)
    (passengers : ℤ) (travel_class : String) :
    (∀ r ∈ (search_flights (.ok catalog) origin destination passengers
        travel_class).flightsList,
      r.flight ∈ catalog ∧
      r.flight.origin = resolveCode origin ∧
      r.flight.destination = resolveCode destination ∧
      r.flight.cls = travel_class ∧
      r.total_price = r.flight.price * passengers) ∧
    (search_flights (.ok catalog) origin destination passengers
        travel_class).flightsList.Pairwise
      (fun a b => a.total_price ≤ b.total_price) ∧
    (search_flights (.ok catalog) origin destination passengers
        travel_class).flightsList.length ≤ 5 ∧
    (∀ fs n, search_flights (.ok catalog) origin destination passengers travel_class =
        .ok fs n →
      n = (catalog.filter (flightMatches (resolveCode origin)
        (resolveCode destination) travel_class)).length) := by
  refine ⟨?_, search_flights_sorted _ _ _ _ _, search_flights_length_le _ _ _ _ _, ?_⟩
  · intro r hr
    have h := searchFlightsMatches_spec (mem_search_flights hr)
    exact ⟨h.1, h.2.1, h.2.2.1, h.2.2.2.1, h.2.2.2.2.1⟩
  · intro fs n h
    unfold search_flights at h
    by_cases hm : (searchFlightsMatches catalog origin destination passengers
        travel_class).isEmpty
    · simp [hm] at h
    · simp only [hm, if_false, Bool.false_eq_true] at h
      cases h
      unfold searchFlightsMatches
      simp

theorem hotelLe_trans (a b c : HotelResult) :
    hotelLe a b = true → hotelLe b c = true → hotelLe a c = true := by
  simp only [hotelLe, Bool.or_eq_true, Bool.and_eq_true, decide_eq_true_iff]
  rintro (hab | ⟨hab, hab'⟩) (hbc | ⟨hbc, hbc'⟩)
  · exact Or.inl (lt_trans hbc hab)
  · exact Or.inl (hbc ▸ hab)
  · exact Or.inl (hab ▸ hbc)
  · exact Or.inr ⟨hab.trans hbc, hab'.trans hbc'⟩

theorem hotelLe_total (a b : HotelResult) : (hotelLe a b || hotelLe b a) = true := by
  simp only [hotelLe, Bool.or_eq_true, Bool.and_eq_true, decide_eq_true_iff]
  rcases lt_trichotomy a.hotel.rating b.hotel.rating with h | h | h
  · exact Or.inr (Or.inl h)
  · rcases le_total a.total_price b.total_price with hp | hp
    · exact Or.inl (Or.inr ⟨h, hp⟩)
    · exact Or.inr (Or.inr ⟨h.symm, hp⟩)
  · exact Or.inl (Or.inl h)

theorem mem_search_hotels {catalog : List Hotel} {dest : String} {ci co : ℤ}
    {g : ℤ} {mr : ℚ} {r : HotelResult}
    (hr : r ∈ (search_hotels (.ok catalog) dest (some ci) (some co) g mr).hotelsList) :
    r ∈ searchHotelsMatches catalog dest ci co mr := by
  unfold search_hotels SearchHotelsResult.hotelsList at hr
  by_cases hm : (searchHotelsMatches catalog dest ci co mr).isEmpty
  · simp [hm] at hr
  · simp only [hm, if_false, Bool.false_eq_true] at hr
    exact (List.mergeSort_perm (searchHotelsMatches catalog dest ci co mr) hotelLe).subset
      ((List.take_sublist 5 _).subset hr)

theorem searchHotelsMatches_spec {catalog : List Hotel} {dest : String}
    {ci co : ℤ} {mr : ℚ} {r : HotelResult}
    (hr : r ∈ searchHotelsMatches catalog dest ci co mr) :
    r.hotel ∈ catalog ∧ pyIn (pyLower dest) (pyLower r.hotel.destination_city) = true ∧
      mr ≤ r.hotel.rating ∧ r.nights = co - ci ∧
      r.total_price = r.hotel.price_per_night * (co - ci) ∧
      r.check_in = ci ∧ r.check_out = co := by
  unfold searchHotelsMatches at hr
  rcases List.mem_map.mp hr with ⟨h, hf, rfl⟩
  rcases List.mem_filter.mp hf with ⟨hmem, hmatch⟩
  have h2 : pyIn (pyLower dest) (pyLower h.destination_city) = true ∧ mr ≤ h.rating := by
    simpa [hotelMatches] using hmatch
  exact ⟨hmem, h2.1, h2.2, rfl, rfl, rfl, rfl⟩

theorem search_hotels_sorted (catalog : List Hotel) (dest : String) (ci co g : ℤ)
    (mr : ℚ) :
    (search_hotels (.ok catalog) dest (some ci) (some co) g mr).hotelsList.Pairwise
      (fun a b => b.hotel.rating < a.hotel.rating ∨
        (a.hotel.rating = b.hotel.rating ∧ a.total_price ≤ b.total_price)) := by
  unfold search_hotels SearchHotelsResult.hotelsList
  by_cases hm : (searchHotelsMatches catalog dest ci co mr).isEmpty
  · simp [hm]
  · simp only [hm, if_false, Bool.false_eq_true]
    have hs := List.sorted_mergeSort hotelLe_trans hotelLe_total
      (searchHotelsMatches catalog dest ci co mr)
    have hs' : ((searchHotelsMatches catalog dest ci co mr).mergeSort hotelLe).Pairwise
        (fun a b => b.hotel.rating < a.hotel.rating ∨
          (a.hotel.rating = b.hotel.rating ∧ a.total_price ≤ b.total_price)) := by
      refine hs.imp ?_
      intro a b h
      simpa [hotelLe] using h
    exact hs'.sublist (List.take_sublist 5 _)

theorem search_hotels_length_le (catalog : List Hotel) (dest : String) (ci co g : ℤ)
    (mr : ℚ) :
    (search_hotels (.ok catalog) dest (some ci) (some co) g mr).hotelsList.length ≤ 5 := by
  unfold search_hotels SearchHotelsResult.hotelsList
  by_cases hm : (searchHotelsMatches catalog dest ci co mr).isEmpty
  · simp [hm]
  · simp only [hm, if_false, Bool.false_eq_true]
    exact List.length_take_le 5 _

theorem activityLe_trans (a b c : Activity) :
    activityLe a b = true → activityLe b c = true → activityLe a c = true := by
  simp only [activityLe, decide_eq_true_iff]
  intro h1 h2
  exact h2.trans h1

theorem activityLe_total (a b : Activity) :
    (activityLe a b || activityLe b a) = true := by
  simp only [activityLe, Bool.or_eq_true, decide_eq_true_iff]
  exact (le_total b.rating a.rating)

theorem mem_search_activities {catalog : List Activity} {dest : String}
    {i : InterestsArg} {a : Activity}
    (ha : a ∈ (search_activities (.ok catalog) dest i).activitiesList) :
    a ∈ searchActivitiesMatches catalog dest i := by
  unfold search_activities SearchActivitiesResult.activitiesList at ha
  by_cases hm : (searchActivitiesMatches catalog dest i).isEmpty
  · simp [hm] at ha
  · simp only [hm, if_false, Bool.false_eq_true] at ha
    exact (List.mergeSort_perm (searchActivitiesMatches catalog dest i) activityLe).subset
      ((List.take_sublist 10 _).subset ha)

theorem search_activities_sorted (catalog : List Activity) (dest : String)
    (i : InterestsArg) :
    (search_activities (.ok catalog) dest i).activitiesList.Pairwise
      (fun a b => b.rating ≤ a.rating) := by
  unfold search_activities SearchActivitiesResult.activitiesList
  by_cases hm : (searchActivitiesMatches catalog dest i).isEmpty
  · simp [hm]
  · simp only [hm, if_false, Bool.false_eq_true]
    have hs := List.sorted_mergeSort activityLe_trans activityLe_total
      (searchActivitiesMatches catalog dest i)
    have hs' : ((searchActivitiesMatches catalog dest i).mergeSort activityLe).Pairwise
        (fun a b => b.rating ≤ a.rating) := by
      refine hs.imp ?_
      intro a b h
      simpa [activityLe] using h
    exact hs'.sublist (List.take_sublist 10 _)

theorem search_activities_length_le (catalog : List Activity) (dest : String)
    (i : InterestsArg) :
    (search_activities (.ok catalog) dest i).activitiesList.length ≤ 10 := by
  unfold search_activities SearchActivitiesResult.activitiesList
  by_cases hm : (searchActivitiesMatches catalog dest i).isEmpty
  · simp [hm]
  · simp only [hm, if_false, Bool.false_eq_true]
    exact List.length_take_le 10 _

theorem gateOpen_false {env : Env} (h : env.payment_authorized_var ≠ some "true") :
    gateOpen env = false := by
  simpa [gateOpen] using h

/-- C1: whenever `PAYMENT_AUTHORIZED` is not set to `'true'`, `book_flight`
and `book_hotel` return the failed/payment-required shape for every flight
or hotel id, every catalog state (even an unavailable dataset) and every
random seed — so the result depends on none of them: no catalog lookup, no
charge computation, and no booking reference is generated. -/
theorem C1_gate_closed_no_booking_work (env : Env)
    (hgate : env.payment_authorized_var ≠ some "true")
    (flightCatalog : Except String (List Flight))
    (hotelCatalog : Except String (List Hotel)) (rngF rngH : ℕ)
    (flight_id hotel_id : String) (check_in check_out : Option ℤ) :
    book_flight env flightCatalog rngF flight_id =
      .paymentRequired
        "⚠️ Payment information required. Please configure payment details in the sidebar first."
        "setup_payment" ∧
    book_hotel env hotelCatalog rngH hotel_id check_in check_out =
      .paymentRequired
        "⚠️ Payment information required. Please configure payment details in the sidebar first."
        "setup_payment" ∧
    (book_flight env flightCatalog rngF flight_id).reference? = none ∧
    (book_hotel env hotelCatalog rngH hotel_id check_in check_out).reference? = none := by
  have hg : gateOpen env = false := gateOpen_false hgate
  refine ⟨?_, ?_, ?_, ?_⟩ <;>
    simp [book_flight, book_hotel, hg, BookFlightResult.reference?,
      BookHotelResult.reference?]

/-- C1 witness: the gate-closed failure at a concrete unset environment,
a concrete (even unavailable) catalog and concrete ids. -/
theorem C1_gate_closed_no_booking_work_witness :
    book_flight ⟨none⟩ (.error "missing") 7 "FL001" =
      .paymentRequired
        "⚠️ Payment information required. Please configure payment details in the sidebar first."
        "setup_payment" ∧
    (book_hotel ⟨none⟩ (.error "missing") 7 "HTL001" (some 0) (some 3)).reference? =
      none :=
  ⟨(C1_gate_closed_no_booking_work ⟨none⟩ (by decide) (.error "missing")
      (.error "missing") 7 7 "FL001" "HTL001" (some 0) (some 3)).1,
   (C1_gate_closed_no_booking_work ⟨none⟩ (by decide) (.error "missing")
      (.error "missing") 7 7 "FL001" "HTL001" (some 0) (some 3)).2.2.2⟩

/-- C6: with the gate open, booking an id absent from the corresponding
catalog returns the failed/not-found shape (a structured result, not an
exception) and generates no booking reference. -/
theorem C6_unknown_id_not_found (env : Env)
    (hgate : env.payment_authorized_var = some "true")
    (flightCatalog : List Flight) (hotelCatalog : List Hotel) (rngF rngH : ℕ)
    (flight_id hotel_id : String) (check_in check_out : Option ℤ)
    (hf : ∀ f ∈ flightCatalog, f.flight_id ≠ flight_id)
    (hh : ∀ h ∈ hotelCatalog, h.hotel_id ≠ hotel_id) :
    book_flight env (.ok flightCatalog) rngF flight_id =
      .notFound ("Flight " ++ flight_id ++ " not found") ∧
    book_hotel env (.ok hotelCatalog) rngH hotel_id check_in check_out =
      .notFound ("Hotel " ++ hotel_id ++ " not found") ∧
    (book_flight env (.ok flightCatalog) rngF flight_id).reference? = none ∧
    (book_hotel env (.ok hotelCatalog) rngH hotel_id check_in check_out).reference? =
      none := by
  have hg : gateOpen env = true := by simp [gateOpen, hgate]
  have hfindf : flightCatalog.find? (fun f => f.flight_id == flight_id) = none := by
    rw [List.find?_eq_none]
    intro f hfm
    simpa using hf f hfm
  have hfindh : hotelCatalog.find? (fun h => h.hotel_id == hotel_id) = none := by
    rw [List.find?_eq_none]
    intro h hhm
    simpa using hh h hhm
  refine ⟨?_, ?_, ?_, ?_⟩ <;>
    simp [book_flight, book_hotel, hg, hfindf, hfindh,
      BookFlightResult.reference?, BookHotelResult.reference?]

/-- C6 witness: unknown ids against concrete one-row catalogs with the
gate open. -/
theorem C6_unknown_id_not_found_witness :
    book_flight ⟨some "true"⟩
        (.ok [⟨"FL001", "Garuda Indonesia", "CGK", "DPS", "economy", 200, "USD",
          "2h 05m", "Jakarta", "Bali"⟩]) 7 "FL999" =
      .notFound ("Flight " ++ "FL999" ++ " not found") :=
  (C6_unknown_id_not_found ⟨some "true"⟩ rfl
    [⟨"FL001", "Garuda Indonesia", "CGK", "DPS", "economy", 200, "USD",
      "2h 05m", "Jakarta", "Bali"⟩] [] 7 7 "FL999" "HTL999" (some 0) (some 3)
    (by decide) (by decide)).1

/-- C2 witness: the spec's worked example — a Jakarta→Bali economy search
for 2 passengers over a catalog holding one CGK→DPS economy flight priced
200 returns exactly that flight with `total_price = 400`. -/
theorem C2_flight_search_contract_witness :
    search_flights (.ok [demoFlight]) "Jakarta" "Bali" 2 "economy" =
      .ok [⟨demoFlight, 400, 2⟩] 1 ∧
    (search_flights (.ok [demoFlight]) "Jakarta" "Bali" 2 "economy").flightsList.Pairwise
      (fun a b => a.total_price ≤ b.total_price) := by
  have hro : resolveCode "Jakarta" = "CGK" := by decide
  have hrd : resolveCode "Bali" = "DPS" := by decide
  have hm : searchFlightsMatches [demoFlight] "Jakarta" "Bali" 2 "economy" =
      [⟨demoFlight, 400, 2⟩] := by
    simp [searchFlightsMatches, hro, hrd, flightMatches, mkFlightResult, demoFlight]
    norm_num
  exact ⟨by simp [search_flights, hm, List.mergeSort_singleton],
    (C2_flight_search_contract [demoFlight] "Jakarta" "Bali" 2 "economy").2.1⟩

/-- C3: hotel search returns only catalog rows whose rating is at least
`min_rating` and whose city contains the query destination
case-insensitively, each carrying `nights = check_out − check_in` and
`total_price = price_per_night × nights`, ordered by rating descending
then total price ascending, and truncated to at most 5 results. -/
theorem C3_hotel_search_contract (catalog : List Hotel) (destination : String)
    (check_in check_out guests : ℤ) (min_rating : ℚ) :
    (∀ r ∈ (search_hotels (.ok catalog) destination (some check_in)
        (some check_out) guests min_rating).hotelsList,
      r.hotel ∈ catalog ∧
      min_rating ≤ r.hotel.rating ∧
      pyIn (pyLower destination) (pyLower r.hotel.destination_city) = true ∧
      r.nights = check_out - check_in ∧
      r.total_price = r.hotel.price_per_night * (check_out - check_in)) ∧
    (search_hotels (.ok catalog) destination (some check_in) (some check_out)
        guests min_rating).hotelsList.Pairwise
      (fun a b => b.hotel.rating < a.hotel.rating ∨
        (a.hotel.rating = b.hotel.rating ∧ a.total_price ≤ b.total_price)) ∧
    (search_hotels (.ok catalog) destination (some check_in) (some check_out)
        guests min_rating).hotelsList.length ≤ 5 := by
  refine ⟨?_, search_hotels_sorted _ _ _ _ _ _, search_hotels_length_le _ _ _ _ _ _⟩
  intro r hr
  have h := searchHotelsMatches_spec (mem_search_hotels hr)
  exact ⟨h.1, h.2.2.1, h.2.1, h.2.2.2.1, h.2.2.2.2.1⟩

/-- C3 witness: the spec's worked example — a 3-night Bali search over a
catalog holding one hotel priced 100/night rated 4.5 in "Denpasar, Bali"
returns it with `nights = 3`, `total_price = 300`. -/
theorem C3_hotel_search_contract_witness :
    search_hotels (.ok [demoHotel]) "Bali" (some 1) (some 4) 2 4 =
      .ok [⟨demoHotel, 3, 300, 1, 4⟩] 1 ∧
    (search_hotels (.ok [demoHotel]) "Bali" (some 1) (some 4) 2 4).hotelsList.length ≤ 5 := by
  have hsub : pyIn (pyLower "Bali") (pyLower "Denpasar, Bali") = true := by decide
  have hmatch : hotelMatches "Bali" 4 demoHotel = true := by
    simp only [hotelMatches, demoHotel, hsub, Bool.true_and, decide_eq_true_iff]
    norm_num
  have hm : searchHotelsMatches [demoHotel] "Bali" 1 4 4 =
      [⟨demoHotel, 3, 300, 1, 4⟩] := by
    simp [searchHotelsMatches, hmatch, mkHotelResult]
    norm_num [demoHotel]
  exact ⟨by simp [search_hotels, hm, List.mergeSort_singleton],
    (C3_hotel_search_contract [demoHotel] "Bali" 1 4 2 4).2.2⟩

theorem budgetTotals_foldl_filter (l : List Expense) (init : ℚ × ℚ) :
    l.foldl budgetStep init =
      (l.filter (fun e => e.category == "flights" || e.category == "hotels")).foldl
        budgetStep init := by
  induction l generalizing init with
  | nil => rfl
  | cons e t ih =>
    by_cases he : (e.category == "flights" || e.category == "hotels") = true
    · simp only [List.filter_cons, he, if_true, List.foldl_cons]
      exact ih _
    · have he' : (e.category == "flights") = false ∧ (e.category == "hotels") = false := by
        constructor <;> (revert he; cases hf : (e.category == "flights") <;>
          cases hh : (e.category == "hotels") <;> simp)
      have hstep : budgetStep init e = init := by
        simp [budgetStep, he'.1, he'.2]
      simp only [List.filter_cons, he, if_false, List.foldl_cons, hstep, Bool.false_eq_true]
      exact ih _

/-- C4: budget evaluation counts only `flights` and `hotels` expenses —
dropping every expense of any other category leaves the totals unchanged —
and on the single expense `{category: 'activities', amount: 500}` the
returned `total_spent` is 0. -/
theorem C4_budget_ignores_other_categories (l : List Expense) (p : UserPreferences) :
    budgetTotals l =
      budgetTotals
        (l.filter (fun e => e.category == "flights" || e.category == "hotels")) ∧
    ((calculate_budget (.parsed [⟨"activities", (500 : ℚ)⟩]) (.ok p)).report?.map
      (fun r => r.total_spent)) = some 0 := by
  constructor
  · exact budgetTotals_foldl_filter l (0, 0)
  · have h0 : round2 ((0 : ℚ)) = 0 := by simpa using round2_cents 0
    have hf : ("activities" == "flights") = false := by decide
    have hh : ("activities" == "hotels") = false := by decide
    simp [calculate_budget, budgetTotals, budgetStep, BudgetResult.report?, hf, hh, h0]

/-- C4 witness: the two parts of the theorem at a concrete expense list
and concrete preferences. -/
theorem C4_budget_ignores_other_categories_witness :
    budgetTotals [⟨"activities", 500⟩] =
      budgetTotals
        (List.filter (fun e => e.category == "flights" || e.category == "hotels")
          [⟨"activities", 500⟩]) ∧
    ((calculate_budget (.parsed [⟨"activities", (500 : ℚ)⟩])
        (.ok ⟨⟨3000, "USD", [("flights", 1200), ("hotels", 1500)]⟩⟩)).report?.map
      (fun r => r.total_spent)) = some 0 :=
  C4_budget_ignores_other_categories [⟨"activities", 500⟩]
    ⟨⟨3000, "USD", [("flights", 1200), ("hotels", 1500)]⟩⟩

theorem IsCents.zero : IsCents 0 :=
  ⟨0, by norm_num⟩

theorem IsCents.add {x y : ℚ} (hx : IsCents x) (hy : IsCents y) : IsCents (x + y) := by
  obtain ⟨a, rfl⟩ := hx
  obtain ⟨b, rfl⟩ := hy
  exact ⟨a + b, by push_cast; ring⟩

theorem IsCents.sub {x y : ℚ} (hx : IsCents x) (hy : IsCents y) : IsCents (x - y) := by
  obtain ⟨a, rfl⟩ := hx
  obtain ⟨b, rfl⟩ := hy
  exact ⟨a - b, by push_cast; ring⟩

theorem round2_isCents {x : ℚ} (h : IsCents x) : round2 x = x := by
  obtain ⟨k, rfl⟩ := h
  exact round2_cents k

theorem budgetStep_cents {t : ℚ × ℚ} {e : Expense} (h1 : IsCents t.1)
    (h2 : IsCents t.2) (he : IsCents e.amount) :
    IsCents (budgetStep t e).1 ∧ IsCents (budgetStep t e).2 := by
  unfold budgetStep
  split
  · exact ⟨h1.add he, h2⟩
  · split
    · exact ⟨h1, h2.add he⟩
    · exact ⟨h1, h2⟩

theorem foldl_budgetStep_cents (l : List Expense) :
    ∀ init : ℚ × ℚ, (∀ e ∈ l, IsCents e.amount) → IsCents init.1 → IsCents init.2 →
      IsCents (l.foldl budgetStep init).1 ∧ IsCents (l.foldl budgetStep init).2 := by
  induction l with
  | nil => exact fun init _ h1 h2 => ⟨h1, h2⟩
  | cons e t ih =>
    intro init h h1 h2
    have he : IsCents e.amount := h e (List.mem_cons_self e t)
    have hs := budgetStep_cents h1 h2 he
    rw [List.foldl_cons]
    exact ih _ (fun x hx => h x (List.mem_cons_of_mem _ hx)) hs.1 hs.2

theorem budgetTotals_cents {l : List Expense} (h : ∀ e ∈ l, IsCents e.amount) :
    IsCents (budgetTotals l).1 ∧ IsCents (budgetTotals l).2 :=
  foldl_budgetStep_cents l (0, 0) h IsCents.zero IsCents.zero

theorem mem_categoryWarning {bd : List (String × ℚ)} {cat : String} {spent : ℚ}
    {w : BudgetWarning} :
    w ∈ categoryWarning bd cat spent ↔
      ∃ lim, lookupBreakdown bd cat = some lim ∧ lim < spent ∧
        w = .categoryExceeds cat spent lim := by
  unfold categoryWarning
  rcases hlb : lookupBreakdown bd cat with _ | lim
  · simp
  · by_cases hlt : lim < spent
    · simp [hlt]
    · simp [hlt]

theorem mem_budgetWarnings_categoryExceeds {bl : BudgetLimits} {t : ℚ × ℚ}
    {c : String} {s lim : ℚ} :
    BudgetWarning.categoryExceeds c s lim ∈ budgetWarnings bl t ↔
      (((c = "flights" ∧ s = t.1) ∨ (c = "hotels" ∧ s = t.2)) ∧
        lookupBreakdown bl.breakdown c = some lim ∧ lim < s) := by
  unfold budgetWarnings
  simp only [List.mem_append, mem_categoryWarning]
  constructor
  · rintro ((⟨l, hl, hlt, heq⟩ | ⟨l, hl, hlt, heq⟩) | hmem)
    · obtain ⟨rfl, rfl, rfl⟩ : c = "flights" ∧ s = t.1 ∧ lim = l := by
        injection heq with h1 h2 h3
        exact ⟨h1, h2, h3⟩
      exact ⟨Or.inl ⟨rfl, rfl⟩, hl, hlt⟩
    · obtain ⟨rfl, rfl, rfl⟩ : c = "hotels" ∧ s = t.2 ∧ lim = l := by
        injection heq with h1 h2 h3
        exact ⟨h1, h2, h3⟩
      exact ⟨Or.inr ⟨rfl, rfl⟩, hl, hlt⟩
    · exfalso
      revert hmem
      split <;> simp
  · rintro ⟨⟨rfl, rfl⟩ | ⟨rfl, rfl⟩, hl, hlt⟩
    · exact Or.inl (Or.inl ⟨lim, hl, hlt, rfl⟩)
    · exact Or.inl (Or.inr ⟨lim, hl, hlt, rfl⟩)

theorem mem_budgetWarnings_totalExceeded {bl : BudgetLimits} {t : ℚ × ℚ} {x : ℚ} :
    BudgetWarning.totalExceeded x ∈ budgetWarnings bl t ↔
      (bl.total < t.1 + t.2 ∧ x = t.1 + t.2 - bl.total) := by
  unfold budgetWarnings
  simp only [List.mem_append, mem_categoryWarning]
  constructor
  · rintro ((⟨l, _, _, heq⟩ | ⟨l, _, _, heq⟩) | hmem)
    · exact absurd heq (by simp)
    · exact absurd heq (by simp)
    · revert hmem
      by_cases hle : t.1 + t.2 ≤ bl.total
      · simp [hle]
      · intro hmem
        have hlt : bl.total < t.1 + t.2 := lt_of_not_le hle
        have hx : x = |bl.total - (t.1 + t.2)| := by
          simpa [hle] using hmem
        refine ⟨hlt, ?_⟩
        rw [hx, abs_of_neg (by linarith), neg_sub]
  · rintro ⟨hlt, rfl⟩
    refine Or.inr ?_
    have hle : ¬ (t.1 + t.2 ≤ bl.total) := not_le.mpr hlt
    simp [hle, abs_of_neg (show bl.total - (t.1 + t.2) < 0 by linarith), neg_sub]

theorem categoryWarning_all {bd : List (String × ℚ)} {cat : String} {spent : ℚ}
    {w : BudgetWarning} (h : w ∈ categoryWarning bd cat spent) :
    ∃ lim, w = .categoryExceeds cat spent lim := by
  rcases mem_categoryWarning.mp h with ⟨lim, _, _, rfl⟩
  exact ⟨lim, rfl⟩

theorem budgetWarnings_nodup (bl : BudgetLimits) (t : ℚ × ℚ) :
    (budgetWarnings bl t).Nodup := by
  have hlen : ∀ (bd : List (String × ℚ)) (cat : String) (s : ℚ),
      (categoryWarning bd cat s).length ≤ 1 := by
    intro bd cat s
    unfold categoryWarning
    split
    · split <;> simp
    · simp
  have hf := hlen bl.breakdown "flights" t.1
  have hh := hlen bl.breakdown "hotels" t.2
  unfold budgetWarnings
  rw [List.nodup_append, List.nodup_append]
  refine ⟨⟨List.nodup_iff_sublist.mpr ?_, List.nodup_iff_sublist.mpr ?_, ?_⟩,
    ?_, ?_⟩
  · intro a ha
    have := ha.length_le
    simp at this
    omega
  · intro a ha
    have := ha.length_le
    simp at this
    omega
  · intro w hwf hwh
    rcases categoryWarning_all hwf with ⟨l1, rfl⟩
    rcases categoryWarning_all hwh with ⟨l2, heq⟩
    injection heq with h1 _ _
    exact absurd h1 (by decide)
  · split
    · simp
    · simp
  · intro w hw
    rcases List.mem_append.mp hw with hwf | hwh
    · rcases categoryWarning_all hwf with ⟨l1, rfl⟩
      split <;> simp
    · rcases categoryWarning_all hwh with ⟨l1, rfl⟩
      split <;> simp

/-- C5: on a well-formed (whole-cent) expense list, the returned report
has `remaining = budget total − total spent` and
`within_budget = (total spent ≤ budget total)`; its warning list contains a
category warning exactly for each recognized category whose spent amount
strictly exceeds its configured limit, contains a total-overage warning
naming `total spent − budget total` exactly when the total is exceeded,
and holds no duplicates. -/
theorem C5_budget_report (l : List Expense) (p : UserPreferences)
    (hamounts : ∀ e ∈ l, IsCents e.amount) (htotal : IsCents p.budget.total) :
    ∀ r, calculate_budget (.parsed l) (.ok p) = .report r →
      r.total_spent = (budgetTotals l).1 + (budgetTotals l).2 ∧
      r.remaining = p.budget.total - ((budgetTotals l).1 + (budgetTotals l).2) ∧
      r.within_budget =
        decide ((budgetTotals l).1 + (budgetTotals l).2 ≤ p.budget.total) ∧
      (∀ c s lim, BudgetWarning.categoryExceeds c s lim ∈ r.warnings ↔
        (((c = "flights" ∧ s = (budgetTotals l).1) ∨
            (c = "hotels" ∧ s = (budgetTotals l).2)) ∧
          lookupBreakdown p.budget.breakdown c = some lim ∧ lim < s)) ∧
      (∀ x, BudgetWarning.totalExceeded x ∈ r.warnings ↔
        (p.budget.total < (budgetTotals l).1 + (budgetTotals l).2 ∧
          x = (budgetTotals l).1 + (budgetTotals l).2 - p.budget.total)) ∧
      r.warnings.Nodup := by
  intro r hr
  have hcents := budgetTotals_cents hamounts
  have hspent : IsCents ((budgetTotals l).1 + (budgetTotals l).2) :=
    hcents.1.add hcents.2
  simp only [calculate_budget] at hr
  cases hr
  exact ⟨round2_isCents hspent, round2_isCents (htotal.sub hspent), rfl,
    fun c s lim => mem_budgetWarnings_categoryExceeds,
    fun x => mem_budgetWarnings_totalExceeded,
    budgetWarnings_nodup _ _⟩

/-- C5 witness: one 1300 flights expense against a 1000 budget with a 1200
flights limit: the report carries `remaining = −300`,
`within_budget = false`, a flights-exceeds warning and a 300 total-overage
warning, with no duplicates. -/
theorem C5_budget_report_witness :
    calculate_budget (.parsed [⟨"flights", (1300 : ℚ)⟩]) (.ok demoPrefs) =
      .report ⟨1300, 1000, -300, 1300, 0, false,
        [.categoryExceeds "flights" 1300 1200, .totalExceeded 300], "USD",
        "Activities not included - book directly with providers"⟩ ∧
    ([BudgetWarning.categoryExceeds "flights" 1300 1200,
      BudgetWarning.totalExceeded 300] : List BudgetWarning).Nodup := by
  have hamounts : ∀ e ∈ [(⟨"flights", (1300 : ℚ)⟩ : Expense)], IsCents e.amount := by
    intro e he
    simp only [List.mem_singleton] at he
    subst he
    exact ⟨130000, by norm_num⟩
  have htotal : IsCents demoPrefs.budget.total := ⟨100000, by norm_num [demoPrefs]⟩
  have hr2a : round2 (1300 : ℚ) = 1300 := by
    have h : (1300 : ℚ) = ((130000 : ℤ) : ℚ) / 100 := by norm_num
    rw [h, round2_cents]
  have hr2b : round2 (-300 : ℚ) = -300 := by
    have h : (-300 : ℚ) = ((-30000 : ℤ) : ℚ) / 100 := by norm_num
    rw [h, round2_cents]
  have hbe1 : ("flights" == "hotels") = false := by decide
  have hbe2 : ("hotels" == "hotels") = true := by decide
  have ht : budgetTotals [(⟨"flights", (1300 : ℚ)⟩ : Expense)] = (0 + 1300, 0) := by
    simp [budgetTotals, budgetStep]
  have heq : calculate_budget (.parsed [⟨"flights", (1300 : ℚ)⟩]) (.ok demoPrefs) =
      .report ⟨1300, 1000, -300, 1300, 0, false,
        [.categoryExceeds "flights" 1300 1200, .totalExceeded 300], "USD",
        "Activities not included - book directly with providers"⟩ := by
    simp only [calculate_budget, ht, demoPrefs, budgetWarnings, categoryWarning,
      lookupBreakdown, List.find?, hbe1, hbe2]
    norm_num [hr2a, hr2b]
  exact ⟨heq, (C5_budget_report [⟨"flights", (1300 : ℚ)⟩] demoPrefs hamounts htotal
    _ heq).2.2.2.2.2⟩

/-- C7 (amended): every returned activity's city contains the query
destination case-insensitively; when the normalized interest set is
non-empty, every returned activity's category is a member of it (a
provided-but-empty or unparseable interests value disables the category
filter, MEMBERSHIP in the empty set is not required); results are sorted
descending by rating and truncated to at most 10. -/
theorem C7_activity_search_contract (catalog : List Activity) (destination : String)
    (interests : InterestsArg) :
    (∀ a ∈ (search_activities (.ok catalog) destination interests).activitiesList,
      a ∈ catalog ∧
      pyIn (pyLower destination) (pyLower a.destination_city) = true ∧
      ∀ l, normalizeInterests interests = some l → l ≠ [] → a.category ∈ l) ∧
    (search_activities (.ok catalog) destination interests).activitiesList.Pairwise
      (fun a b => b.rating ≤ a.rating) ∧
    (search_activities (.ok catalog) destination
      interests).activitiesList.length ≤ 10 := by
  refine ⟨?_, search_activities_sorted _ _ _, search_activities_length_le _ _ _⟩
  intro a ha
  have hm := mem_search_activities ha
  unfold searchActivitiesMatches at hm
  rcases List.mem_filter.mp hm with ⟨hmem, hmatch⟩
  simp only [activityMatches, Bool.and_eq_true] at hmatch
  refine ⟨hmem, hmatch.1, ?_⟩
  intro l hl hne
  have h2 := hmatch.2
  rw [hl] at h2
  simp only [interestsAllow] at h2
  rw [if_neg (by simpa using hne)] at h2
  simpa using h2

/-- C7 counterexample: `interests` IS provided — as the JSON-serialized
empty collection `"[]"`, normalized to the empty interest set — yet the
search returns an activity whose category is not a member of that set:
the code's truthiness test treats an empty list like an absent filter. -/
theorem C7_interests_empty_counterexample :
    normalizeInterests (.serialized (some [])) = some [] ∧
    (search_activities (.ok [demoActivity]) "Bali"
        (.serialized (some []))).activitiesList = [demoActivity] ∧
    demoActivity.category ∉ ([] : List String) := by
  have hsub : pyIn (pyLower "Bali") (pyLower "Bali") = true := by decide
  have hm : searchActivitiesMatches [demoActivity] "Bali" (.serialized (some [])) =
      [demoActivity] := by
    simp [searchActivitiesMatches, activityMatches, normalizeInterests,
      interestsAllow, demoActivity, hsub]
  refine ⟨rfl, ?_, by simp⟩
  simp [search_activities, hm, List.mergeSort_singleton,
    SearchActivitiesResult.activitiesList]

/-- C8: every tool boundary yields a structured result: a failing dataset
load or unparseable input surfaces as the `{error: ...}` shape, while a
search matching zero records yields the normal empty-list shape with its
human-readable message — never an error.  (Each embedded tool is a total
function into its result type, mirroring the catch-all `except` boundary
of the source: no fault escapes to the caller.) -/
theorem C8_structured_results :
    (∀ e o d p tc, search_flights (.error e) o d p tc =
      .error ("Failed to search flights: " ++ e)) ∧
    (∀ c o d p tc, searchFlightsMatches c o d p tc = [] →
      search_flights (.ok c) o d p tc =
        .empty ("No flights found from " ++ resolveCode o ++ " to " ++
          resolveCode d)) ∧
    (∀ e dest ci co g mr, search_hotels (.error e) dest ci co g mr =
      .error ("Failed to search hotels: " ++ e)) ∧
    (∀ c dest ci co g mr, searchHotelsMatches c dest ci co mr = [] →
      search_hotels (.ok c) dest (some ci) (some co) g mr =
        .empty ("No hotels found in " ++ dest ++ " meeting criteria")) ∧
    (∀ e dest i, search_activities (.error e) dest i =
      .error ("Failed to search activities: " ++ e)) ∧
    (∀ c dest i, searchActivitiesMatches c dest i = [] →
      search_activities (.ok c) dest i =
        .empty ("No activities found in " ++ dest)) ∧
    (∀ pE, calculate_budget .invalidJson pE =
      .error "Invalid JSON format for planned_expenses") ∧
    (∀ l e, calculate_budget (.parsed l) (.error e) =
      .error ("Failed to calculate budget: " ++ e)) ∧
    (∀ env rng fid e, gateOpen env = true →
      book_flight env (.error e) rng fid = .error ("Booking failed: " ++ e)) ∧
    (∀ env rng hid e ci co, gateOpen env = true →
      book_hotel env (.error e) rng hid ci co =
        .error ("Booking failed: " ++ e)) := by
  refine ⟨fun e o d p tc => rfl, ?_, fun e dest ci co g mr => rfl, ?_,
    fun e dest i => rfl, ?_, fun pE => rfl, fun l e => rfl, ?_, ?_⟩
  · intro c o d p tc hm
    simp [search_flights, hm]
  · intro c dest ci co g mr hm
    simp [search_hotels, hm]
  · intro c dest i hm
    simp [search_activities, hm]
  · intro env rng fid e hg
    simp [book_flight, hg]
  · intro env rng hid e ci co hg
    simp [book_hotel, hg]

/-- C9: with the gate open and the hotel found in the catalog,
`book_hotel` charges `price_per_night × (check_out − check_in)` over
`check_out − check_in` nights — exactly the `nights` and `total_price`
that `search_hotels` attaches to the same hotel for the same date pair. -/
theorem C9_book_hotel_matches_search (env : Env)
    (hgate : env.payment_authorized_var = some "true")
    (catalog : List Hotel) (hotel_id : String) (h : Hotel)
    (hfind : catalog.find? (fun x => x.hotel_id == hotel_id) = some h)
    (rng : ℕ) (check_in check_out : ℤ) (destination : String) (guests : ℤ)
    (min_rating : ℚ) :
    (book_hotel env (.ok catalog) rng hotel_id (some check_in)
        (some check_out)).charge? =
      some (check_out - check_in, h.price_per_night * (check_out - check_in)) ∧
    ∀ r ∈ (search_hotels (.ok catalog) destination (some check_in)
        (some check_out) guests min_rating).hotelsList,
      r.hotel = h →
      (book_hotel env (.ok catalog) rng hotel_id (some check_in)
          (some check_out)).charge? = some (r.nights, r.total_price) := by
  have hg : gateOpen env = true := by simp [gateOpen, hgate]
  have hb : (book_hotel env (.ok catalog) rng hotel_id (some check_in)
      (some check_out)).charge? =
      some (check_out - check_in, h.price_per_night * (check_out - check_in)) := by
    simp [book_hotel, hg, hfind, BookHotelResult.charge?]
  refine ⟨hb, ?_⟩
  intro r hr hrh
  have hs := searchHotelsMatches_spec (mem_search_hotels hr)
  rw [hb, hs.2.2.2.1, hs.2.2.2.2.1, hrh]

/-- C9 witness: booking `demoHotel` for days 1→4 charges 100 × 3 = 300
over 3 nights, matching the search result of `C3`'s witness. -/
theorem C9_book_hotel_matches_search_witness :
    (book_hotel ⟨some "true"⟩ (.ok [demoHotel]) 7 "HTL001" (some 1)
        (some 4)).charge? = some (3, 300) := by
  have hfind : [demoHotel].find? (fun x => x.hotel_id == "HTL001") =
      some demoHotel := by
    simp [demoHotel]
  have h := (C9_book_hotel_matches_search ⟨some "true"⟩ rfl [demoHotel] "HTL001"
    demoHotel hfind 7 1 4 "Bali" 2 4).1
  rw [h]
  norm_num [demoHotel]

/-- C10: a valid date pair with `check_out ≤ check_in` is not rejected:
hotel search returns a normal (non-error) result whose entries carry
`nights = check_out − check_in ≤ 0` and (prices being nonnegative)
`total_price = price_per_night × nights ≤ 0`, and `book_hotel` with the
gate open confirms the booking with that same non-positive charge. -/
theorem C10_nonpositive_stay (catalog : List Hotel) (destination : String)
    (check_in check_out guests : ℤ) (min_rating : ℚ)
    (hdates : check_out ≤ check_in)
    (hprices : ∀ h ∈ catalog, 0 ≤ h.price_per_night)
    (env : Env) (hgate : env.payment_authorized_var = some "true")
    (hotel_id : String) (h : Hotel)
    (hfind : catalog.find? (fun x => x.hotel_id == hotel_id) = some h)
    (rng : ℕ) :
    (∀ e, search_hotels (.ok catalog) destination (some check_in)
      (some check_out) guests min_rating ≠ .error e) ∧
    (∀ r ∈ (search_hotels (.ok catalog) destination (some check_in)
        (some check_out) guests min_rating).hotelsList,
      r.nights = check_out - check_in ∧ r.nights ≤ 0 ∧
      r.total_price = r.hotel.price_per_night * (check_out - check_in) ∧
      r.total_price ≤ 0) ∧
    (book_hotel env (.ok catalog) rng hotel_id (some check_in)
        (some check_out)).charge? =
      some (check_out - check_in, h.price_per_night * (check_out - check_in)) ∧
    h.price_per_night * ((check_out : ℚ) - check_in) ≤ 0 := by
  have hg : gateOpen env = true := by simp [gateOpen, hgate]
  have hcast : ((check_out : ℚ) - check_in) ≤ 0 := by
    have := sub_nonpos.mpr hdates
    exact_mod_cast Int.cast_nonpos.mpr this
  refine ⟨?_, ?_, ?_, ?_⟩
  · intro e
    unfold search_hotels
    by_cases hm : (searchHotelsMatches catalog destination check_in check_out
        min_rating).isEmpty
    · simp [hm]
    · simp [hm]
  · intro r hr
    have hs := searchHotelsMatches_spec (mem_search_hotels hr)
    have hmem := hs.1
    have hnights := hs.2.2.2.1
    have htp := hs.2.2.2.2.1
    refine ⟨hnights, ?_, htp, ?_⟩
    · rw [hnights]
      exact sub_nonpos.mpr hdates
    · rw [htp]
      exact mul_nonpos_iff.mpr (Or.inl ⟨hprices r.hotel hmem, hcast⟩)
  · simp [book_hotel, hg, hfind, BookHotelResult.charge?]
  · exact mul_nonpos_iff.mpr
      (Or.inl ⟨hprices h (List.mem_of_find?_eq_some hfind), hcast⟩)

/-- C10 witness: booking `demoHotel` for the reversed range 5→3 confirms
with nights = −2 and a charge of −200. -/
theorem C10_nonpositive_stay_witness :
    (book_hotel ⟨some "true"⟩ (.ok [demoHotel]) 7 "HTL001" (some 5)
        (some 3)).charge? = some (-2, -200) := by
  have hfind : [demoHotel].find? (fun x => x.hotel_id == "HTL001") =
      some demoHotel := by
    simp [demoHotel]
  have hprices : ∀ h ∈ [demoHotel], (0 : ℚ) ≤ h.price_per_night := by
    intro h hm
    simp only [List.mem_singleton] at hm
    subst hm
    norm_num [demoHotel]
  have h := (C10_nonpositive_stay [demoHotel] "Bali" 5 3 2 4 (by norm_num)
    hprices ⟨some "true"⟩ rfl "HTL001" demoHotel hfind 7).2.2.1
  rw [h]
  norm_num [demoHotel]
